import Mathlib

/-!
Verification development for the credentials document pipeline
(src/documents/document_processor.py and src/documents/extractors.py).

Python dictionaries supplied by callers are modelled as association lists
with first-match lookup; Python exceptions are modelled with Except String;
the Django storage collaborator (Document.objects.create and friends) is
modelled as explicit state of created rows, with an environment that says
which create calls succeed and which raise.  datetime.now() is modelled as
a timestamp string carried in the environment.  SHA-256 and the
json.dumps(data, sort_keys=True) serialization are embedded concretely.
-/

/-- Dict models a Python dict with string keys and string values, as an
association list; lookup returns the first binding. -/
abbrev Dict := List (String × String)

/-- dictGet models `d[k]` / `d.get(k)` lookup on a dict. -/
def dictGet (d : Dict) (k : String) : Option String :=
  match d with
  | [] => none
  | kv :: rest => if kv.1 = k then some kv.2 else dictGet rest k

/-- JVal is the subset of JSON values that appear in onchain_data payloads:
strings and null (Python None, from dict.get misses). -/
inductive JVal where
  | str (s : String)
  | null
deriving DecidableEq

/-- Payload is an onchain_data dict: field name to JSON value, in insertion
order. -/
abbrev Payload := List (String × JVal)

/-- reqGet models `data[k]`: a missing key raises KeyError. -/
def reqGet (d : Dict) (k : String) : Except String String :=
  match dictGet d k with
  | some v => .ok v
  | none => .error ("KeyError: " ++ k)

/-- optGet models `data.get(k)`: a missing key yields Python None, which
lands in the payload as JSON null. -/
def optGet (d : Dict) (k : String) : JVal :=
  match dictGet d k with
  | some v => .str v
  | none => .null

/-! ### JSON serialization: json.dumps(data, sort_keys=True)

Default json.dumps settings: separators (", ", ": "), ensure_ascii=True,
keys sorted by code-point order.  Characters outside printable ASCII are
escaped as lowercase \uXXXX (with surrogate pairs above U+FFFF). -/

/-- hexDigits16 is the lowercase hex alphabet. -/
def hexDigits16 : List Char := "0123456789abcdef".data

/-- hexDigitChar maps a value below 16 to its lowercase hex digit. -/
def hexDigitChar (n : Nat) : Char := hexDigits16.getD n '0'

/-- hex4 renders a value below 0x10000 as exactly four lowercase hex digits. -/
def hex4 (n : Nat) : List Char :=
  [hexDigitChar (n / 4096 % 16), hexDigitChar (n / 256 % 16),
   hexDigitChar (n / 16 % 16), hexDigitChar (n % 16)]

/-- jsonEscapeChar escapes one character the way json.dumps with
ensure_ascii=True does. -/
def jsonEscapeChar (c : Char) : List Char :=
  if c = '"' then ['\\', '"']
  else if c = '\\' then ['\\', '\\']
  else if c = '\n' then ['\\', 'n']
  else if c = '\t' then ['\\', 't']
  else if c = '\r' then ['\\', 'r']
  else if c = '\x08' then ['\\', 'b']
  else if c = '\x0c' then ['\\', 'f']
  else if c.toNat < 32 then '\\' :: 'u' :: hex4 c.toNat
  else if c.toNat < 127 then [c]
  else if c.toNat < 65536 then '\\' :: 'u' :: hex4 c.toNat
  else
    let n := c.toNat - 65536
    ('\\' :: 'u' :: hex4 (55296 + n / 1024)) ++ ('\\' :: 'u' :: hex4 (56320 + n % 1024))

/-- jsonStringChars renders a JSON string literal with quotes and escapes. -/
def jsonStringChars (s : String) : List Char :=
  '"' :: (s.data.foldr (fun c acc => jsonEscapeChar c ++ acc) ['"'])

/-- jsonValChars renders a JSON value. -/
def jsonValChars : JVal → List Char
  | .str s => jsonStringChars s
  | .null => ['n', 'u', 'l', 'l']

/-- jsonMemberChars renders one `"key": value` member. -/
def jsonMemberChars (kv : String × JVal) : List Char :=
  jsonStringChars kv.1 ++ [':', ' '] ++ jsonValChars kv.2

/-- joinSep interleaves a separator between rendered members. -/
def joinSep (sep : List Char) : List (List Char) → List Char
  | [] => []
  | [x] => x
  | x :: y :: rest => x ++ sep ++ joinSep sep (y :: rest)

/-- insertByKey inserts one binding into a key-sorted payload (Python str
order is code-point lexicographic, which is the core String order). -/
def insertByKey (kv : String × JVal) : Payload → Payload
  | [] => [kv]
  | h :: t => if kv.1 < h.1 then kv :: h :: t else h :: insertByKey kv t

/-- sortByKey sorts a payload by key, as sort_keys=True does. -/
def sortByKey : Payload → Payload
  | [] => []
  | kv :: rest => insertByKey kv (sortByKey rest)

/-- jsonDumpsSortKeys models json.dumps(data, sort_keys=True) on a payload
dict. -/
def jsonDumpsSortKeys (p : Payload) : String :=
  String.mk ('\x7b' :: (joinSep [',', ' '] ((sortByKey p).map jsonMemberChars) ++ ['\x7d']))

/-! ### SHA-256 (hashlib.sha256), over Nat with explicit mod 2^32 -/

/-- w32 truncates to a 32-bit word. -/
def w32 (n : Nat) : Nat := n % 4294967296

/-- rotr32 is right rotation of a 32-bit word by k bits. -/
def rotr32 (k x : Nat) : Nat := w32 (x / 2 ^ k + x * 2 ^ (32 - k))

/-- shr32 is logical right shift. -/
def shr32 (k x : Nat) : Nat := x / 2 ^ k

/-- not32 is bitwise complement of a 32-bit word. -/
def not32 (x : Nat) : Nat := 4294967295 - w32 x

/-- chF is the SHA-256 Ch function. -/
def chF (x y z : Nat) : Nat := Nat.xor (Nat.land x y) (Nat.land (not32 x) z)

/-- majF is the SHA-256 Maj function. -/
def majF (x y z : Nat) : Nat :=
  Nat.xor (Nat.land x y) (Nat.xor (Nat.land x z) (Nat.land y z))

/-- bigSigma0 is the SHA-256 Σ0 function. -/
def bigSigma0 (x : Nat) : Nat := Nat.xor (rotr32 2 x) (Nat.xor (rotr32 13 x) (rotr32 22 x))

/-- bigSigma1 is the SHA-256 Σ1 function. -/
def bigSigma1 (x : Nat) : Nat := Nat.xor (rotr32 6 x) (Nat.xor (rotr32 11 x) (rotr32 25 x))

/-- smallSigma0 is the SHA-256 σ0 function. -/
def smallSigma0 (x : Nat) : Nat := Nat.xor (rotr32 7 x) (Nat.xor (rotr32 18 x) (shr32 3 x))

/-- smallSigma1 is the SHA-256 σ1 function. -/
def smallSigma1 (x : Nat) : Nat := Nat.xor (rotr32 17 x) (Nat.xor (rotr32 19 x) (shr32 10 x))

/-- sha256K lists the 64 SHA-256 round constants. -/
def sha256K : List Nat :=
  [1116352408, 1899447441, 3049323471, 3921009573, 961987163,
   1508970993, 2453635748, 2870763221, 3624381080, 310598401,
   607225278, 1426881987, 1925078388, 2162078206, 2614888103,
   3248222580, 3835390401, 4022224774, 264347078, 604807628,
   770255983, 1249150122, 1555081692, 1996064986, 2554220882,
   2821834349, 2952996808, 3210313671, 3336571891, 3584528711,
   113926993, 338241895, 666307205, 773529912, 1294757372,
   1396182291, 1695183700, 1986661051, 2177026350, 2456956037,
   2730485921, 2820302411, 3259730800, 3345764771, 3516065817,
   3600352804, 4094571909, 275423344, 430227734, 506948616,
   659060556, 883997877, 958139571, 1322822218, 1537002063,
   1747873779, 1955562222, 2024104815, 2227730452, 2361852424,
   2428436474, 2756734187, 3204031479, 3329325298]

/-- sha256Init lists the eight initial hash words. -/
def sha256Init : List Nat :=
  [1779033703, 3144134277, 1013904242, 2773480762, 1359893119,
   2600822924, 528734635, 1541459225]

/-- toBytesBE renders a number as len big-endian bytes. -/
def toBytesBE (len n : Nat) : List Nat :=
  (List.range len).map (fun i => n / 2 ^ (8 * (len - 1 - i)) % 256)

/-- padMessage appends the 0x80 byte, zero padding and the 64-bit
big-endian bit length, reaching a multiple of 64 bytes. -/
def padMessage (msg : List Nat) : List Nat :=
  let L := msg.length
  msg ++ [128] ++ List.replicate ((119 - L % 64) % 64) 0 ++ toBytesBE 8 (8 * L)

/-- chunk64 splits a byte list into 64-byte blocks. -/
def chunk64 : List Nat → List (List Nat)
  | [] => []
  | b :: rest => (b :: rest).take 64 :: chunk64 ((b :: rest).drop 64)
termination_by l => l.length
decreasing_by simp; omega

/-- bytesToWords packs big-endian bytes into 32-bit words. -/
def bytesToWords : List Nat → List Nat
  | b0 :: b1 :: b2 :: b3 :: rest =>
    (b0 * 16777216 + b1 * 65536 + b2 * 256 + b3) :: bytesToWords rest
  | _ => []

/-- scheduleStep appends the next message-schedule word. -/
def scheduleStep (ws : List Nat) : List Nat :=
  let i := ws.length
  ws ++ [w32 (smallSigma1 (ws.getD (i - 2) 0) + ws.getD (i - 7) 0 +
              smallSigma0 (ws.getD (i - 15) 0) + ws.getD (i - 16) 0)]

/-- buildSchedule extends the 16 block words to the 64 schedule words. -/
def buildSchedule (ws16 : List Nat) : List Nat :=
  (List.range 48).foldl (fun ws _ => scheduleStep ws) ws16

/-- roundStep performs one SHA-256 compression round on the 8-word state. -/
def roundStep (st : List Nat) (kw : Nat × Nat) : List Nat :=
  match st with
  | [a, b, c, d, e, f, g, h] =>
    let t1 := w32 (h + bigSigma1 e + chF e f g + kw.1 + kw.2)
    let t2 := w32 (bigSigma0 a + majF a b c)
    [w32 (t1 + t2), a, b, c, w32 (d + t1), e, f, g]
  | other => other

/-- compressBlock runs the 64 rounds on one block and adds the result to
the chaining state; the output is always an 8-word list. -/
def compressBlock (hs : List Nat) (block : List Nat) : List Nat :=
  let ws := buildSchedule (bytesToWords block)
  let st := (sha256K.zip ws).foldl roundStep hs
  [w32 (hs.getD 0 0 + st.getD 0 0), w32 (hs.getD 1 0 + st.getD 1 0),
   w32 (hs.getD 2 0 + st.getD 2 0), w32 (hs.getD 3 0 + st.getD 3 0),
   w32 (hs.getD 4 0 + st.getD 4 0), w32 (hs.getD 5 0 + st.getD 5 0),
   w32 (hs.getD 6 0 + st.getD 6 0), w32 (hs.getD 7 0 + st.getD 7 0)]

/-- sha256Words is the eight-word SHA-256 digest of a byte list. -/
def sha256Words (msg : List Nat) : List Nat :=
  (chunk64 (padMessage msg)).foldl compressBlock sha256Init

/-- wordHexChars renders a 32-bit word as eight lowercase hex digits. -/
def wordHexChars (w : Nat) : List Char :=
  (List.range 8).map (fun i => hexDigitChar (w / 16 ^ (7 - i) % 16))

/-- hexOfWords renders the digest words as hex characters. -/
def hexOfWords : List Nat → List Char
  | [] => []
  | w :: ws => wordHexChars w ++ hexOfWords ws

/-- utf8Bytes is the UTF-8 encoding of a string, as a byte list. -/
def utf8Bytes (s : String) : List Nat := s.toUTF8.toList.map (fun b => b.toNat)

/-- sha256hex models hashlib.sha256(x.encode()).hexdigest(). -/
def sha256hex (s : String) : String :=
  String.mk (hexOfWords (sha256Words (utf8Bytes s)))

/-- generate_hash models DocumentProcessorService.generate_hash: the SHA-256
hex digest of json.dumps(data, sort_keys=True). -/
def generate_hash (data : Payload) : String :=
  sha256hex (jsonDumpsSortKeys data)

/-- generate_internal_id models DocumentProcessorService.generate_internal_id
with the datetime.now() strftime result supplied as the ts argument. -/
def generate_internal_id (proof_type : String) (ts : String) : String :=
  proof_type ++ "_" ++ ts

/-! ### Storage and processing pipeline (document_processor.py)

The Django ORM collaborator is modelled as explicit state: lists of created
rows plus an id counter (Django primary keys are UUIDs; the model uses a
fresh counter value as the created id).  An Env says which create calls
succeed; a failing create raises, modelled as Except.error carrying the
collaborator's message. -/

/-- Document models a created Document row. -/
structure Document where
  id : Nat
  proof_type : String
  internal_id : String
  validation_hash : String
  onchain_data : Payload
  user_id : Option String
  status : String
deriving DecidableEq

/-- SubRecord models a created typed sub-record row (Certificate,
JobHistory, Skill, Milestone or CommunityContribution), keyed by its
document. -/
structure SubRecord where
  sub_type : String
  docId : Nat
  fields : Payload
deriving DecidableEq

/-- EvidenceRecord models a created EvidenceFile row. -/
structure EvidenceRecord where
  docId : Nat
  fileName : String
  file_type : String
  description : String
deriving DecidableEq

/-- Storage is the visible database state. -/
structure Storage where
  nextId : Nat
  documents : List Document
  subs : List SubRecord
  evidence : List EvidenceRecord
deriving DecidableEq

/-- Storage.empty is the initial database state. -/
def Storage.empty : Storage := { nextId := 1, documents := [], subs := [], evidence := [] }

/-- FileObj models a Django UploadedFile: a name and an optional
content_type. -/
structure FileObj where
  name : String
  content_type : Option String
deriving DecidableEq

/-- Env fixes the collaborator behaviour for one run: the datetime.now()
timestamp string, and which create calls succeed (a failing create raises
with the given message; evidence failure is judged per file name). -/
structure Env where
  ts : String
  docCreateOk : Bool
  docErr : String
  subCreateOk : Bool
  subErr : String
  evidenceOk : String → Bool
  evidenceErr : String

/-- pyOr models `x or y` for an optional string versus a default
(Python None and the empty string are falsy). -/
def pyOr (x : Option String) (dflt : String) : String :=
  match x with
  | some v => if v = "" then dflt else v
  | none => dflt

/-- createDocument models Document.objects.create: on success it appends a
pending row and returns it, otherwise it raises. -/
def createDocument (env : Env) (tag iid vhash : String) (onchain : Payload)
    (uid : Option String) (s : Storage) : Except String Document × Storage :=
  if env.docCreateOk then
    let doc : Document :=
      { id := s.nextId, proof_type := tag, internal_id := iid, validation_hash := vhash,
        onchain_data := onchain, user_id := uid, status := "pending" }
    (.ok doc, { s with nextId := s.nextId + 1, documents := s.documents ++ [doc] })
  else (.error env.docErr, s)

/-- createSub models the typed sub-record objects.create call. -/
def createSub (env : Env) (tag : String) (docId : Nat) (onchain : Payload)
    (s : Storage) : Except String Unit × Storage :=
  if env.subCreateOk then
    (.ok (), { s with subs := s.subs ++ [{ sub_type := tag, docId := docId, fields := onchain }] })
  else (.error env.subErr, s)

/-- processWith is the shared body of the five process_<type> methods:
build the allow-listed payload (KeyError propagates), hash it, assign the
internal id, create the Document row, then the typed sub-record row.
State changes made before a raise stay visible, exactly as in Python. -/
def processWith (env : Env) (tag : String) (onchainE : Except String Payload)
    (uid : Option String) (s : Storage) : Except String Document × Storage :=
  match onchainE with
  | .error e => (.error e, s)
  | .ok onchain =>
    let vhash := generate_hash onchain
    let iid := generate_internal_id tag env.ts
    match createDocument env tag iid vhash onchain uid s with
    | (.error e, s1) => (.error e, s1)
    | (.ok doc, s1) =>
      match createSub env tag doc.id onchain s1 with
      | (.error e, s2) => (.error e, s2)
      | (.ok _, s2) => (.ok doc, s2)

/-- certOnchain builds the certificate allow-listed payload, in source
order; every field is required (data[...] access). -/
def certOnchain (data : Dict) : Except String Payload := do
  let t ← reqGet data "certificate_title"
  let i ← reqGet data "issuer_name"
  let cd ← reqGet data "completion_date"
  let ct ← reqGet data "credential_type"
  let pc ← reqGet data "program_category"
  pure [("certificate_title", .str t), ("issuer_name", .str i), ("completion_date", .str cd),
        ("credential_type", .str ct), ("program_category", .str pc)]

/-- jobOnchain builds the job_history payload; end_date uses dict.get. -/
def jobOnchain (data : Dict) : Except String Payload := do
  let jt ← reqGet data "job_title"
  let en ← reqGet data "employer_name"
  let et ← reqGet data "employment_type"
  let sd ← reqGet data "start_date"
  let jc ← reqGet data "job_category"
  pure [("job_title", .str jt), ("employer_name", .str en), ("employment_type", .str et),
        ("start_date", .str sd), ("end_date", optGet data "end_date"), ("job_category", .str jc)]

/-- skillOnchain builds the skill payload; proficiency_level uses dict.get. -/
def skillOnchain (data : Dict) : Except String Payload := do
  let sn ← reqGet data "skill_name"
  let sc ← reqGet data "skill_category"
  pure [("skill_name", .str sn), ("skill_category", .str sc),
        ("proficiency_level", optGet data "proficiency_level")]

/-- milestoneOnchain builds the milestone payload. -/
def milestoneOnchain (data : Dict) : Except String Payload := do
  let mt ← reqGet data "milestone_type"
  let i ← reqGet data "issuer_name"
  let d ← reqGet data "date"
  let ms ← reqGet data "milestone_summary"
  pure [("milestone_type", .str mt), ("issuer_name", .str i), ("date", .str d),
        ("milestone_summary", .str ms)]

/-- communityOnchain builds the community contribution payload. -/
def communityOnchain (data : Dict) : Except String Payload := do
  let ct ← reqGet data "contribution_type"
  let pn ← reqGet data "platform_name"
  let d ← reqGet data "date"
  pure [("contribution_type", .str ct), ("platform_name", .str pn), ("date", .str d)]

/-- process_certificate models DocumentProcessorService.process_certificate. -/
def process_certificate (env : Env) (data : Dict) (uid : Option String) (s : Storage) :
    Except String Document × Storage :=
  processWith env "certificate" (certOnchain data) uid s

/-- process_job_history models DocumentProcessorService.process_job_history. -/
def process_job_history (env : Env) (data : Dict) (uid : Option String) (s : Storage) :
    Except String Document × Storage :=
  processWith env "job_history" (jobOnchain data) uid s

/-- process_skill models DocumentProcessorService.process_skill. -/
def process_skill (env : Env) (data : Dict) (uid : Option String) (s : Storage) :
    Except String Document × Storage :=
  processWith env "skill" (skillOnchain data) uid s

/-- process_milestone models DocumentProcessorService.process_milestone. -/
def process_milestone (env : Env) (data : Dict) (uid : Option String) (s : Storage) :
    Except String Document × Storage :=
  processWith env "milestone" (milestoneOnchain data) uid s

/-- process_community_contribution models the community handler; note the
internal-id tag is the same community tag used as proof_type. -/
def process_community_contribution (env : Env) (data : Dict) (uid : Option String) (s : Storage) :
    Except String Document × Storage :=
  processWith env "community" (communityOnchain data) uid s

/-- dispatchTyped is the if/elif chain of process_document; none means the
final else branch (unknown proof type). -/
def dispatchTyped (env : Env) (proof_type : String) (data : Dict) (uid : Option String)
    (s : Storage) : Option (Except String Document × Storage) :=
  if proof_type = "certificate" then some (process_certificate env data uid s)
  else if proof_type = "job_history" then some (process_job_history env data uid s)
  else if proof_type = "skill" then some (process_skill env data uid s)
  else if proof_type = "milestone" then some (process_milestone env data uid s)
  else if proof_type = "community" then some (process_community_contribution env data uid s)
  else none

/-- attachEvidence models the evidence loop of process_document: each file
is created as an EvidenceFile row; a failing create is caught inside the
loop and contributes one error message, and the loop continues. -/
def attachEvidence (env : Env) (proof_type : String) (docId : Nat) :
    List FileObj → Storage → List String × Storage
  | [], s => ([], s)
  | f :: fs, s =>
    if env.evidenceOk f.name then
      attachEvidence env proof_type docId fs
        { s with evidence := s.evidence ++
            [{ docId := docId, fileName := f.name, file_type := pyOr f.content_type "unknown",
               description := "Evidence for " ++ proof_type }] }
    else
      let rest := attachEvidence env proof_type docId fs s
      (("Error uploading file " ++ f.name ++ ": " ++ env.evidenceErr) :: rest.1, rest.2)

/-- process_document models DocumentProcessorService.process_document.
The outer try/except catches an exception raised by the typed handler; at
that point the Python local `document` is still None (the assignment never
completed), so the `if document: document.delete()` rollback guard does
nothing and the state changes already made by the handler remain. -/
def process_document (env : Env) (proof_type : String) (data : Dict) (uid : Option String)
    (evidence_files : List FileObj) (s : Storage) :
    (Option Document × List String) × Storage :=
  match dispatchTyped env proof_type data uid s with
  | none => ((none, ["Unknown proof type: " ++ proof_type]), s)
  | some (.error e, s1) => ((none, [e]), s1)
  | some (.ok doc, s1) =>
    let att := attachEvidence env proof_type doc.id evidence_files s1
    ((some doc, att.1), att.2)

/-- Submission models one item of a batch: doc_data.get fields. -/
structure Submission where
  proof_type : String
  data : Dict
  evidence_files : List FileObj
deriving DecidableEq

instance : Inhabited Submission := ⟨{ proof_type := "", data := [], evidence_files := [] }⟩

/-- BatchEntry models one entry of the results list of process_batch. -/
inductive BatchEntry where
  | success (index : Nat) (proof_type : String) (document_id : String) (internal_id : String)
  | failure (index : Nat) (proof_type : String) (errors : List String)
deriving DecidableEq

instance : Inhabited BatchEntry := ⟨.failure 0 "" []⟩

/-- BatchEntry.indexOf reads the stored original index. -/
def BatchEntry.indexOf : BatchEntry → Nat
  | .success i _ _ _ => i
  | .failure i _ _ => i

/-- BatchEntry.typeOf reads the stored declared proof type. -/
def BatchEntry.typeOf : BatchEntry → String
  | .success _ t _ _ => t
  | .failure _ t _ => t

/-- BatchEntry.isSuccess tells whether the item returned a record. -/
def BatchEntry.isSuccess : BatchEntry → Bool
  | .success _ _ _ _ => true
  | .failure _ _ _ => false

/-- BatchStats models the statistics dict of process_batch. -/
structure BatchStats where
  total : Nat
  successful : Nat
  failed : Nat
deriving DecidableEq

/-- BatchOut models the return value of process_batch. -/
structure BatchOut where
  results : List BatchEntry
  statistics : BatchStats
deriving DecidableEq

/-- processBatchAux runs the loop body of process_batch from a given index,
threading storage; it returns entries, the success and failure tallies, and
the final storage. -/
def processBatchAux (env : Env) (uid : Option String) :
    Nat → List Submission → Storage → List BatchEntry × Nat × Nat × Storage
  | _, [], s => ([], 0, 0, s)
  | idx, it :: rest, s =>
    let r := process_document env it.proof_type it.data uid it.evidence_files s
    let tail := processBatchAux env uid (idx + 1) rest r.2
    match r.1.1 with
    | some doc =>
      (.success idx it.proof_type (toString doc.id) doc.internal_id :: tail.1,
       tail.2.1 + 1, tail.2.2.1, tail.2.2.2)
    | none =>
      (.failure idx it.proof_type r.1.2 :: tail.1, tail.2.1, tail.2.2.1 + 1, tail.2.2.2)

/-- process_batch models DocumentProcessorService.process_batch. -/
def process_batch (env : Env) (documents_data : List Submission) (uid : Option String)
    (s : Storage) : BatchOut × Storage :=
  let a := processBatchAux env uid 0 documents_data s
  ({ results := a.1,
     statistics := { total := documents_data.length, successful := a.2.1, failed := a.2.2.1 } },
   a.2.2.2)

/-! ### Extraction service (extractors.py)

The OCR and PDF collaborators, and the in-file regex field matcher
_extract_structured_data (whose behaviour none of the claims constrain),
are carried in an ExtractEnv; the theorems below hold for every matcher,
in particular the repository's.  String work is done on char lists so that
everything evaluates by kernel reduction. -/

/-- isPySpace matches Python str.strip / regex whitespace for the
characters that occur here. -/
def isPySpace (c : Char) : Bool :=
  c = ' ' || c = '\t' || c = '\n' || c = '\r' || c = '\x0b' || c = '\x0c'

/-- pyStripList removes leading and trailing whitespace from a char list. -/
def pyStripList (cs : List Char) : List Char :=
  ((cs.dropWhile isPySpace).reverse.dropWhile isPySpace).reverse

/-- pyStrip models str.strip(). -/
def pyStrip (s : String) : String := String.mk (pyStripList s.data)

/-- lowerChars models str.lower() on a char list (ASCII). -/
def lowerChars (cs : List Char) : List Char := cs.map Char.toLower

/-- splitDotAux splits a char list on every dot. -/
def splitDotAux : List Char → List Char → List (List Char)
  | [], acc => [acc.reverse]
  | c :: t, acc => if c = '.' then acc.reverse :: splitDotAux t [] else splitDotAux t (c :: acc)

/-- fileExtension models file_obj.name.split(".")[-1].lower(). -/
def fileExtension (name : String) : String :=
  String.mk (lowerChars ((splitDotAux name.data []).getLastD []))

/-- ExtractEnv fixes the extraction collaborators: the PDF text layer
(page texts, or a raised error), the OCR backend, and the regex
field matcher _extract_structured_data as an opaque-to-the-claims total
function from raw text and proof type to extracted fields. -/
structure ExtractEnv where
  pdfPages : FileObj → Except String (List String)
  ocr : FileObj → Except String String
  structuredExtract : String → String → Dict

/-- imageExtensions lists the extensions routed to OCR. -/
def imageExtensions : List String := ["png", "jpg", "jpeg", "gif", "tiff"]

/-- extract_from_pdf models DocumentExtractor._extract_from_pdf: page texts
concatenated with newline separators, stripped; a collaborator exception is
re-raised as "PDF extraction failed: ...". -/
def extract_from_pdf (env : ExtractEnv) (f : FileObj) : Except String String :=
  match env.pdfPages f with
  | .ok pages => .ok (pyStrip (pages.foldl (fun acc p => acc ++ p ++ "\n") ""))
  | .error e => .error ("PDF extraction failed: " ++ e)

/-- extract_from_image models DocumentExtractor._extract_from_image. -/
def extract_from_image (env : ExtractEnv) (f : FileObj) : Except String String :=
  match env.ocr f with
  | .ok t => .ok (pyStrip t)
  | .error e => .error ("Image extraction failed: " ++ e)

/-- extract_from_file models DocumentExtractor.extract_from_file: dispatch
on the lower-cased extension; unknown extensions and collaborator errors
are soft failures returned as data, never raised. -/
def extract_from_file (env : ExtractEnv) (f : FileObj) (proof_type : String) :
    Dict × String :=
  let ext := fileExtension f.name
  if ext = "pdf" then
    match extract_from_pdf env f with
    | .ok text => (env.structuredExtract text proof_type, text)
    | .error e => ([], "Error extracting data: " ++ e)
  else if ext ∈ imageExtensions then
    match extract_from_image env f with
    | .ok text => (env.structuredExtract text proof_type, text)
    | .error e => ([], "Error extracting data: " ++ e)
  else ([], "Unsupported file type")

/-! ### Date normalization (_normalize_date)

datetime.strptime over the fixed format list is embedded as a
backtracking matcher with exactly the token semantics of CPython
_strptime: a format-string space matches one or more whitespace
characters, %d matches (3[01]|[12]\d|0[1-9]|[1-9]), %m matches
(1[0-2]|0[1-9]|[1-9]), %Y matches four digits, %B and %b match month
names case-insensitively, the whole string must be consumed, and the
parsed numbers must form a valid calendar date (missing fields default to
1900-01-01).  strftime("%Y-%m") prints the year unpadded (all years here
have four digits) and the month zero-padded to two digits. -/

/-- FTok is one token of a compiled strptime format. -/
inductive FTok where
  | lit (c : Char)
  | ws
  | monthFull
  | monthAbbr
  | dayNum
  | monthNum
  | year4

/-- PDate is the strptime accumulator with its 1900-01-01 defaults. -/
structure PDate where
  y : Nat
  m : Nat
  d : Nat

/-- pdateDefault is the strptime default date. -/
def pdateDefault : PDate := { y := 1900, m := 1, d := 1 }

/-- monthFullNames maps full month names to month numbers. -/
def monthFullNames : List (String × Nat) :=
  [("january", 1), ("february", 2), ("march", 3), ("april", 4), ("may", 5), ("june", 6),
   ("july", 7), ("august", 8), ("september", 9), ("october", 10), ("november", 11),
   ("december", 12)]

/-- monthAbbrNames maps abbreviated month names to month numbers. -/
def monthAbbrNames : List (String × Nat) :=
  [("jan", 1), ("feb", 2), ("mar", 3), ("apr", 4), ("may", 5), ("jun", 6), ("jul", 7),
   ("aug", 8), ("sep", 9), ("oct", 10), ("nov", 11), ("dec", 12)]

/-- dval reads a digit character. -/
def dval (c : Char) : Nat := c.toNat - 48

/-- isD19 matches the regex class [1-9]. -/
def isD19 (c : Char) : Bool := c.isDigit && c ≠ '0'

/-- dayAlts lists the %d regex alternatives (3[01]|[12]\d|0[1-9]|[1-9])
that match at the head, in alternation order, with the remaining input. -/
def dayAlts : List Char → List (Nat × List Char)
  | c1 :: c2 :: rest =>
    (if c1 = '3' && (c2 = '0' || c2 = '1') then [(30 + dval c2, rest)] else []) ++
    (if (c1 = '1' || c1 = '2') && c2.isDigit then [(10 * dval c1 + dval c2, rest)] else []) ++
    (if c1 = '0' && isD19 c2 then [(dval c2, rest)] else []) ++
    (if isD19 c1 then [(dval c1, c2 :: rest)] else [])
  | [c1] => if isD19 c1 then [(dval c1, [])] else []
  | [] => []

/-- monthAlts lists the %m regex alternatives (1[0-2]|0[1-9]|[1-9]). -/
def monthAlts : List Char → List (Nat × List Char)
  | c1 :: c2 :: rest =>
    (if c1 = '1' && (c2 = '0' || c2 = '1' || c2 = '2') then [(10 + dval c2, rest)] else []) ++
    (if c1 = '0' && isD19 c2 then [(dval c2, rest)] else []) ++
    (if isD19 c1 then [(dval c1, c2 :: rest)] else [])
  | [c1] => if isD19 c1 then [(dval c1, [])] else []
  | [] => []

/-- year4At matches %Y: exactly four digits. -/
def year4At : List Char → Option (Nat × List Char)
  | c1 :: c2 :: c3 :: c4 :: rest =>
    if c1.isDigit && c2.isDigit && c3.isDigit && c4.isDigit then
      some (1000 * dval c1 + 100 * dval c2 + 10 * dval c3 + dval c4, rest)
    else none
  | _ => none

/-- matchMonthName matches one name of the list at the head of the input
(the input is already lower-cased; no listed name is a prefix of another
within its list, so first-match is the regex alternation). -/
def matchMonthName (names : List (String × Nat)) (cs : List Char) :
    Option (Nat × List Char) :=
  names.findSome? (fun nv =>
    if nv.1.data.isPrefixOf cs then some (nv.2, cs.drop nv.1.data.length) else none)

/-- matchToks runs a compiled format against lower-cased input with the
backtracking of the regex alternations; success requires consuming the
whole input, as strptime does. -/
def matchToks : List FTok → List Char → PDate → Option PDate
  | [], [], acc => some acc
  | [], _ :: _, _ => none
  | .lit c :: rest, cs, acc =>
    match cs with
    | c2 :: cs2 => if c2 = c then matchToks rest cs2 acc else none
    | [] => none
  | .ws :: rest, cs, acc =>
    let run := (cs.takeWhile isPySpace).length
    if run = 0 then none else matchToks rest (cs.drop run) acc
  | .monthFull :: rest, cs, acc =>
    (matchMonthName monthFullNames cs).bind
      (fun r => matchToks rest r.2 { acc with m := r.1 })
  | .monthAbbr :: rest, cs, acc =>
    (matchMonthName monthAbbrNames cs).bind
      (fun r => matchToks rest r.2 { acc with m := r.1 })
  | .dayNum :: rest, cs, acc =>
    (dayAlts cs).findSome? (fun r => matchToks rest r.2 { acc with d := r.1 })
  | .monthNum :: rest, cs, acc =>
    (monthAlts cs).findSome? (fun r => matchToks rest r.2 { acc with m := r.1 })
  | .year4 :: rest, cs, acc =>
    (year4At cs).bind (fun r => matchToks rest r.2 { acc with y := r.1 })

/-- formats_to_try compiles the ten formats of _normalize_date, in source
order. -/
def formats_to_try : List (List FTok) :=
  [[.monthFull, .ws, .dayNum, .lit ',', .ws, .year4],
   [.monthAbbr, .ws, .dayNum, .lit ',', .ws, .year4],
   [.monthFull, .ws, .dayNum, .ws, .year4],
   [.monthAbbr, .ws, .dayNum, .ws, .year4],
   [.monthFull, .ws, .year4],
   [.monthAbbr, .ws, .year4],
   [.monthNum, .lit '/', .dayNum, .lit '/', .year4],
   [.monthNum, .lit '-', .dayNum, .lit '-', .year4],
   [.dayNum, .lit '/', .monthNum, .lit '/', .year4],
   [.year4, .lit '-', .monthNum, .lit '-', .dayNum]]

/-- isLeapYear is the Gregorian leap rule used by datetime. -/
def isLeapYear (y : Nat) : Bool := y % 4 = 0 && (y % 100 ≠ 0 || y % 400 = 0)

/-- daysInMonth is the datetime month length. -/
def daysInMonth (y m : Nat) : Nat :=
  if m = 2 then (if isLeapYear y then 29 else 28)
  else if m = 4 || m = 6 || m = 9 || m = 11 then 30
  else 31

/-- validDate is the datetime constructor check applied by strptime. -/
def validDate (p : PDate) : Bool :=
  1 ≤ p.y && 1 ≤ p.m && p.m ≤ 12 && 1 ≤ p.d && p.d ≤ daysInMonth p.y p.m

/-- tryFormats tries the ten formats in order and yields the year and month
of the first successful parse. -/
def tryFormats (s : String) : Option (Nat × Nat) :=
  formats_to_try.findSome? (fun fmt =>
    (matchToks fmt (lowerChars s.data) pdateDefault).bind
      (fun p => if validDate p then some (p.y, p.m) else none))

/-- zfill2Nat zero-pads a month number, as strftime %m does. -/
def zfill2Nat (m : Nat) : String := if m < 10 then "0" ++ toString m else toString m

/-- strftimeYM models dt.strftime("%Y-%m"). -/
def strftimeYM (y m : Nat) : String := toString y ++ "-" ++ zfill2Nat m

/-- isWordChar is the regex word class \w (ASCII). -/
def isWordChar (c : Char) : Bool := c.isAlphanum || c = '_'

/-- noWordAt says position i holds no word character (off the end counts). -/
def noWordAt (cs : List Char) (i : Nat) : Bool :=
  match cs.get? i with
  | some c => !isWordChar c
  | none => true

/-- boundaryBefore is the \b condition to the left of a token starting at
i whose first character is a word character. -/
def boundaryBefore (cs : List Char) (i : Nat) : Bool :=
  i = 0 || noWordAt cs (i - 1)

/-- yearTokenAt matches the fallback year regex \b(20\d{2})\b at one
position. -/
def yearTokenAt (cs : List Char) (i : Nat) : Option String :=
  match cs.drop i with
  | c1 :: c2 :: c3 :: c4 :: _ =>
    if c1 = '2' && c2 = '0' && c3.isDigit && c4.isDigit &&
       boundaryBefore cs i && noWordAt cs (i + 4) then
      some (String.mk [c1, c2, c3, c4])
    else none
  | _ => none

/-- yearSearch models re.search for the fallback year: leftmost position
wins. -/
def yearSearch (s : String) : Option String :=
  (List.range s.data.length).findSome? (yearTokenAt s.data)

/-- monthTokenAt matches the fallback month regex \b(0?[1-9]|1[0-2])\b at
one position, trying the alternatives in regex order: zero-prefixed
two-digit, bare single digit, then 1[0-2]. -/
def monthTokenAt (cs : List Char) (i : Nat) : Option String :=
  if boundaryBefore cs i then
    match cs.drop i with
    | c1 :: c2 :: _ =>
      if c1 = '0' && isD19 c2 && noWordAt cs (i + 2) then some (String.mk [c1, c2])
      else if isD19 c1 && noWordAt cs (i + 1) then some (String.mk [c1])
      else if c1 = '1' && (c2 = '0' || c2 = '1' || c2 = '2') && noWordAt cs (i + 2) then
        some (String.mk [c1, c2])
      else none
    | [c1] => if isD19 c1 then some (String.mk [c1]) else none
    | [] => none
  else none

/-- monthSearch models re.search for the fallback month token. -/
def monthSearch (s : String) : Option String :=
  (List.range s.data.length).findSome? (monthTokenAt s.data)

/-- month_names is the name-to-number table of _normalize_date, in source
(insertion) order; note the abbreviation list omits may. -/
def month_names : List (String × String) :=
  [("january", "01"), ("february", "02"), ("march", "03"), ("april", "04"), ("may", "05"),
   ("june", "06"), ("july", "07"), ("august", "08"), ("september", "09"), ("october", "10"),
   ("november", "11"), ("december", "12"),
   ("jan", "01"), ("feb", "02"), ("mar", "03"), ("apr", "04"), ("jun", "06"), ("jul", "07"),
   ("aug", "08"), ("sep", "09"), ("oct", "10"), ("nov", "11"), ("dec", "12")]

/-- listContainsSub is Python substring containment on char lists. -/
def listContainsSub (hay needle : List Char) : Bool :=
  match hay with
  | [] => needle.isEmpty
  | c :: t => needle.isPrefixOf (c :: t) || listContainsSub t needle

/-- monthNameFallback is the final loop of _normalize_date: the first table
name contained in the lower-cased text, provided a year was found, yields
its month number. -/
def monthNameFallback (s : String) (yearM : Option String) : Option String :=
  month_names.findSome? (fun nv =>
    if listContainsSub (lowerChars s.data) nv.1.data && yearM.isSome then some nv.2 else none)

/-- zfill2Str models month.zfill(2) on the matched month token. -/
def zfill2Str (m : String) : String := if m.length < 2 then "0" ++ m else m

/-- normalize_date models DocumentExtractor._normalize_date. -/
def normalize_date (s0 : String) : String :=
  let s := pyStrip s0
  match tryFormats s with
  | some ym => strftimeYM ym.1 ym.2
  | none =>
    match yearSearch s, monthSearch s with
    | some y, some m => y ++ "-" ++ zfill2Str m
    | yearM, _ =>
      match yearM, monthNameFallback s yearM with
      | some y, some mm => y ++ "-" ++ mm
      | _, _ => s

/-! ### Confidence scoring and the convenience wrapper -/

/-- Confidence models the confidence dict: the overall percentage (an
exact rational; Python uses float division) and the per-field label map in
insertion order. -/
structure Confidence where
  overall : Rat
  fields : List (String × String)
deriving DecidableEq

/-- requiredFieldsFor is the required-field table of
get_extraction_confidence. -/
def requiredFieldsFor : String → Option (List String)
  | "certificate" => some ["certificate_title", "issuer_name", "completion_date"]
  | "job_history" => some ["job_title", "employer_name", "start_date"]
  | _ => none

/-- presentNonEmpty says a required field is present with a truthy
(non-empty) value. -/
def presentNonEmpty (extracted : Dict) (f : String) : Bool :=
  match dictGet extracted f with
  | some v => !(v = "")
  | none => false

/-- get_extraction_confidence models
DocumentExtractor.get_extraction_confidence. -/
def get_extraction_confidence (extracted : Dict) (proof_type : String) : Confidence :=
  match requiredFieldsFor proof_type with
  | none => { overall := 0, fields := [] }
  | some req =>
    { overall := ((req.filter (presentNonEmpty extracted)).length : Rat) / (req.length : Rat) * 100,
      fields := extracted.filterMap (fun kv =>
        if kv.2 = "" then none
        else some (kv.1, if kv.2.length > 3 then "high" else "low")) }

/-- defaultsFor is the required_fields default table of
suggest_missing_fields. -/
def defaultsFor : String → List (String × String)
  | "certificate" =>
    [("certificate_title", "Professional Certificate"),
     ("program_category", "Professional Development")]
  | "job_history" => [("job_category", "General")]
  | _ => []

/-- suggest_missing_fields models DocumentExtractor.suggest_missing_fields. -/
def suggest_missing_fields (extracted : Dict) (proof_type : String) : Dict :=
  (defaultsFor proof_type).filter (fun kv => (dictGet extracted kv.1).isNone)

/-- dictUpdate models `merged = dict(base); merged.update(u)`: existing keys
keep their position with the new value, new keys are appended. -/
def dictUpdate (base u : Dict) : Dict :=
  base.map (fun kv => (kv.1, (dictGet u kv.1).getD kv.2)) ++
    u.filter (fun kv => (dictGet base kv.1).isNone)

/-- ECDResult models the dict returned by extract_and_create_document. -/
structure ECDResult where
  extracted_data : Dict
  merged_data : Dict
  suggestions : Dict
  confidence : Confidence
  raw_text : Option String
deriving DecidableEq

/-- extract_and_create_document models the module-level convenience
function: extraction, user-data merge, suggestions, confidence, and the
raw-text sample truncated to the first 500 characters (None when empty). -/
def extract_and_create_document (env : ExtractEnv) (f : FileObj) (proof_type : String)
    (user_provided_data : Option Dict) : ECDResult :=
  let er := extract_from_file env f proof_type
  let merged :=
    match user_provided_data with
    | some u => dictUpdate er.1 u
    | none => er.1
  { extracted_data := er.1,
    merged_data := merged,
    suggestions := suggest_missing_fields merged proof_type,
    confidence := get_extraction_confidence er.1 proof_type,
    raw_text := if er.2 = "" then none else some (String.mk (er.2.data.take 500)) }

/-! ### Helper lemmas about the digest -/

theorem compressBlock_length (hs b : List Nat) : (compressBlock hs b).length = 8 := rfl

theorem foldl_compressBlock_length (bs : List (List Nat)) :
    ∀ hs : List Nat, (bs.foldl compressBlock hs).length = 8 ∨ bs.foldl compressBlock hs = hs := by
  induction bs with
  | nil => intro hs; exact Or.inr rfl
  | cons b bs ih =>
    intro hs
    rw [List.foldl_cons]
    rcases ih (compressBlock hs b) with h | h
    · exact Or.inl h
    · exact Or.inl (by rw [h]; exact compressBlock_length hs b)

theorem sha256Words_length (msg : List Nat) : (sha256Words msg).length = 8 := by
  unfold sha256Words
  rcases foldl_compressBlock_length (chunk64 (padMessage msg)) sha256Init with h | h
  · exact h
  · rw [h]; rfl

theorem wordHexChars_length (w : Nat) : (wordHexChars w).length = 8 := by
  simp [wordHexChars]

theorem hexOfWords_length (ws : List Nat) : (hexOfWords ws).length = 8 * ws.length := by
  induction ws with
  | nil => rfl
  | cons w ws ih =>
    rw [hexOfWords, List.length_append, wordHexChars_length, ih, List.length_cons]
    ring

theorem stringMk_length (l : List Char) : (String.mk l).length = l.length := rfl

/-- sha256hex always produces exactly 64 characters. -/
theorem sha256hex_length (s : String) : (sha256hex s).length = 64 := by
  unfold sha256hex
  rw [stringMk_length, hexOfWords_length, sha256Words_length]

theorem hexDigitChar_mem (n : Nat) : hexDigitChar n ∈ hexDigits16 := by
  unfold hexDigitChar
  rcases Nat.lt_or_ge n 16 with h | h
  · interval_cases n <;> decide
  · rw [List.getD_eq_default _ _ (by rw [show hexDigits16.length = 16 from rfl]; exact h)]
    decide

theorem wordHexChars_mem {w : Nat} {c : Char} (hc : c ∈ wordHexChars w) : c ∈ hexDigits16 := by
  simp only [wordHexChars, List.mem_map, List.mem_range] at hc
  obtain ⟨i, _, rfl⟩ := hc
  exact hexDigitChar_mem _

theorem hexOfWords_mem : ∀ {ws : List Nat} {c : Char}, c ∈ hexOfWords ws → c ∈ hexDigits16 := by
  intro ws
  induction ws with
  | nil => intro c hc; simp [hexOfWords] at hc
  | cons w ws ih =>
    intro c hc
    rw [hexOfWords] at hc
    rcases List.mem_append.mp hc with h | h
    · exact wordHexChars_mem h
    · exact ih h

/-- sha256hex only produces lowercase hex characters. -/
theorem sha256hex_chars (s : String) : ∀ c ∈ (sha256hex s).data, c ∈ hexDigits16 := by
  intro c hc
  exact hexOfWords_mem hc

theorem compressBlock_getD_lt (hs b : List Nat) (i : Nat) (hi : i < 8) :
    (compressBlock hs b).getD i 0 < 4294967296 := by
  interval_cases i <;> · show w32 _ < 4294967296; exact Nat.mod_lt _ (by norm_num)

theorem foldl_compressBlock_getD_lt (bs : List (List Nat)) :
    ∀ hs : List Nat, (∀ j, j < 8 → hs.getD j 0 < 4294967296) →
      ∀ i, i < 8 → (bs.foldl compressBlock hs).getD i 0 < 4294967296 := by
  induction bs with
  | nil => intro hs h i hi; exact h i hi
  | cons b bs ih =>
    intro hs _ i hi
    rw [List.foldl_cons]
    exact ih _ (fun j hj => compressBlock_getD_lt _ _ j hj) i hi

theorem sha256Words_getD_lt (msg : List Nat) (i : Nat) (hi : i < 8) :
    (sha256Words msg).getD i 0 < 4294967296 :=
  foldl_compressBlock_getD_lt _ _ (by decide) i hi

/-! ### Canonical payloads and hashes per document type -/

/-- knownTypes lists the proof types handled by process_document. -/
def knownTypes : List String := ["certificate", "job_history", "skill", "milestone", "community"]

/-- allowList gives, per document type, exactly the caller-data keys read
when building the onchain payload. -/
def allowList : String → List String
  | "certificate" =>
    ["certificate_title", "issuer_name", "completion_date", "credential_type",
     "program_category"]
  | "job_history" =>
    ["job_title", "employer_name", "employment_type", "start_date", "end_date", "job_category"]
  | "skill" => ["skill_name", "skill_category", "proficiency_level"]
  | "milestone" => ["milestone_type", "issuer_name", "date", "milestone_summary"]
  | "community" => ["contribution_type", "platform_name", "date"]
  | _ => []

/-- onchainFor selects the payload builder of a proof type, mirroring the
process_document dispatch. -/
def onchainFor (pt : String) (data : Dict) : Except String Payload :=
  match pt with
  | "certificate" => certOnchain data
  | "job_history" => jobOnchain data
  | "skill" => skillOnchain data
  | "milestone" => milestoneOnchain data
  | "community" => communityOnchain data
  | _ => .error ("Unknown proof type: " ++ pt)

/-- validationHashFor is the validation hash a successful run stores for
the given caller data. -/
def validationHashFor (pt : String) (data : Dict) : Except String String :=
  (onchainFor pt data).map generate_hash

theorem reqGet_congr {d1 d2 : Dict} {k : String} (h : dictGet d1 k = dictGet d2 k) :
    reqGet d1 k = reqGet d2 k := by
  unfold reqGet
  rw [h]

theorem optGet_congr {d1 d2 : Dict} {k : String} (h : dictGet d1 k = dictGet d2 k) :
    optGet d1 k = optGet d2 k := by
  unfold optGet
  rw [h]

theorem processWith_ok {env : Env} {tag : String} {p : Payload}
    {uid : Option String} {s : Storage} {doc : Document} {s2 : Storage}
    (h : processWith env tag (.ok p) uid s = (.ok doc, s2)) :
    doc.validation_hash = generate_hash p
    ∧ doc.proof_type = tag
    ∧ s2.documents = s.documents ++ [doc]
    ∧ s2.subs = s.subs ++ [{ sub_type := tag, docId := doc.id, fields := p }] := by
  by_cases hd : env.docCreateOk
  · by_cases hsub : env.subCreateOk
    · simp only [processWith, createDocument, createSub, hd, hsub, if_true,
        Prod.mk.injEq, Except.ok.injEq] at h
      obtain ⟨hdoc, hs2⟩ := h
      subst hs2
      subst hdoc
      exact ⟨rfl, rfl, rfl, rfl⟩
    · simp [processWith, createDocument, createSub, hd, hsub] at h
  · simp [processWith, createDocument, hd] at h

theorem onchain_congr_cert {d1 d2 : Dict}
    (h : ∀ k ∈ allowList "certificate", dictGet d1 k = dictGet d2 k) :
    certOnchain d1 = certOnchain d2 := by
  have e1 := reqGet_congr (h "certificate_title" (by decide))
  have e2 := reqGet_congr (h "issuer_name" (by decide))
  have e3 := reqGet_congr (h "completion_date" (by decide))
  have e4 := reqGet_congr (h "credential_type" (by decide))
  have e5 := reqGet_congr (h "program_category" (by decide))
  simp only [certOnchain, e1, e2, e3, e4, e5]

theorem onchain_congr_job {d1 d2 : Dict}
    (h : ∀ k ∈ allowList "job_history", dictGet d1 k = dictGet d2 k) :
    jobOnchain d1 = jobOnchain d2 := by
  have e1 := reqGet_congr (h "job_title" (by decide))
  have e2 := reqGet_congr (h "employer_name" (by decide))
  have e3 := reqGet_congr (h "employment_type" (by decide))
  have e4 := reqGet_congr (h "start_date" (by decide))
  have e5 := optGet_congr (h "end_date" (by decide))
  have e6 := reqGet_congr (h "job_category" (by decide))
  simp only [jobOnchain, e1, e2, e3, e4, e5, e6]

theorem onchain_congr_skill {d1 d2 : Dict}
    (h : ∀ k ∈ allowList "skill", dictGet d1 k = dictGet d2 k) :
    skillOnchain d1 = skillOnchain d2 := by
  have e1 := reqGet_congr (h "skill_name" (by decide))
  have e2 := reqGet_congr (h "skill_category" (by decide))
  have e3 := optGet_congr (h "proficiency_level" (by decide))
  simp only [skillOnchain, e1, e2, e3]

theorem onchain_congr_milestone {d1 d2 : Dict}
    (h : ∀ k ∈ allowList "milestone", dictGet d1 k = dictGet d2 k) :
    milestoneOnchain d1 = milestoneOnchain d2 := by
  have e1 := reqGet_congr (h "milestone_type" (by decide))
  have e2 := reqGet_congr (h "issuer_name" (by decide))
  have e3 := reqGet_congr (h "date" (by decide))
  have e4 := reqGet_congr (h "milestone_summary" (by decide))
  simp only [milestoneOnchain, e1, e2, e3, e4]

theorem onchain_congr_community {d1 d2 : Dict}
    (h : ∀ k ∈ allowList "community", dictGet d1 k = dictGet d2 k) :
    communityOnchain d1 = communityOnchain d2 := by
  have e1 := reqGet_congr (h "contribution_type" (by decide))
  have e2 := reqGet_congr (h "platform_name" (by decide))
  have e3 := reqGet_congr (h "date" (by decide))
  simp only [communityOnchain, e1, e2, e3]

/-- Claim C2, amended: for every known document type, two caller dicts that
agree on every allow-listed field (whatever their key order and extra keys)
yield the same validation hash; the hash of a payload is the SHA-256 hex
digest (64 lowercase hex characters) of its key-sorted JSON serialization,
and it is the hash a successful pipeline run stores on the Document row.
So the hash changes only if some allow-listed field value changes; the
converse implication is refuted separately by C2_counterexample. -/
theorem C2_hash_canonicalization (pt : String) (d1 d2 : Dict) (hpt : pt ∈ knownTypes)
    (h : ∀ k ∈ allowList pt, dictGet d1 k = dictGet d2 k) :
    validationHashFor pt d1 = validationHashFor pt d2
    ∧ (∀ p : Payload, generate_hash p = sha256hex (jsonDumpsSortKeys p))
    ∧ (∀ x : String, (sha256hex x).length = 64 ∧ ∀ c ∈ (sha256hex x).data, c ∈ hexDigits16)
    ∧ (∀ (env : Env) (tag : String) (p : Payload) (uid : Option String) (s : Storage)
         (doc : Document) (s2 : Storage),
         processWith env tag (.ok p) uid s = (.ok doc, s2) →
         doc.validation_hash = generate_hash p) := by
  refine ⟨?_, fun p => rfl, fun x => ⟨sha256hex_length x, sha256hex_chars x⟩,
          fun env tag p uid s doc s2 hp => (processWith_ok hp).1⟩
  have hmem : pt = "certificate" ∨ pt = "job_history" ∨ pt = "skill" ∨ pt = "milestone" ∨
      pt = "community" := by simpa [knownTypes] using hpt
  unfold validationHashFor
  rcases hmem with rfl | rfl | rfl | rfl | rfl
  · show (Except.map generate_hash (certOnchain d1)) = Except.map generate_hash (certOnchain d2)
    rw [onchain_congr_cert h]
  · show (Except.map generate_hash (jobOnchain d1)) = Except.map generate_hash (jobOnchain d2)
    rw [onchain_congr_job h]
  · show (Except.map generate_hash (skillOnchain d1)) = Except.map generate_hash (skillOnchain d2)
    rw [onchain_congr_skill h]
  · show (Except.map generate_hash (milestoneOnchain d1)) =
        Except.map generate_hash (milestoneOnchain d2)
    rw [onchain_congr_milestone h]
  · show (Except.map generate_hash (communityOnchain d1)) =
        Except.map generate_hash (communityOnchain d2)
    rw [onchain_congr_community h]

/-- certDict1 lists the certificate fields in one order with one extra key. -/
def certDict1 : Dict :=
  [("program_category", "Web Development"), ("certificate_title", "Responsive Web Design"),
   ("extra_a", "1"), ("issuer_name", "freeCodeCamp"), ("completion_date", "2023-10"),
   ("credential_type", "Course")]

/-- certDict2 lists the same field values in another order with another
extra key. -/
def certDict2 : Dict :=
  [("certificate_title", "Responsive Web Design"), ("issuer_name", "freeCodeCamp"),
   ("completion_date", "2023-10"), ("credential_type", "Course"),
   ("program_category", "Web Development"), ("other_extra", "2")]

/-- Witness for C2_hash_canonicalization: two concrete permuted dicts with
different extra keys agree on the allow-list, so their hashes agree. -/
theorem C2_hash_canonicalization_witness :
    (∀ k ∈ allowList "certificate", dictGet certDict1 k = dictGet certDict2 k)
    ∧ validationHashFor "certificate" certDict1 = validationHashFor "certificate" certDict2 :=
  ⟨by decide, (C2_hash_canonicalization "certificate" certDict1 certDict2 (by decide) (by decide)).1⟩

/-- certDictV is a certificate dict whose title varies. -/
def certDictV (v : String) : Dict :=
  [("certificate_title", v), ("issuer_name", "freeCodeCamp"), ("completion_date", "2023-10"),
   ("credential_type", "Course"), ("program_category", "Web Development")]

/-- certPayloadV is the payload the pipeline builds from certDictV. -/
def certPayloadV (v : String) : Payload :=
  [("certificate_title", .str v), ("issuer_name", .str "freeCodeCamp"),
   ("completion_date", .str "2023-10"), ("credential_type", .str "Course"),
   ("program_category", .str "Web Development")]

theorem certDictV_onchain (v : String) :
    validationHashFor "certificate" (certDictV v) = .ok (generate_hash (certPayloadV v)) := rfl

theorem getD_eq_get {l : List Nat} {n : Nat} (h : n < l.length) : l.getD n 0 = l.get ⟨n, h⟩ := by
  rw [List.getD_eq_get?, List.get?_eq_get h]
  rfl

/-- digestFin packs the digest words of the certDictV hash into a finite
codomain. -/
def digestFin (v : String) : Fin 8 → Fin 4294967296 := fun i =>
  ⟨(sha256Words (utf8Bytes (jsonDumpsSortKeys (certPayloadV v)))).getD i.val 0,
   sha256Words_getD_lt _ i.val i.isLt⟩

/-- Counterexample to the literal C2: the final digest has only 16^64
possible values while field values are unboundedly many, so by pigeonhole
the hash cannot change for every change of an allow-listed field value:
two different certificate_title values share a hash. -/
theorem C2_counterexample :
    ¬ (∀ v1 v2 : String, v1 ≠ v2 →
        validationHashFor "certificate" (certDictV v1) ≠
          validationHashFor "certificate" (certDictV v2)) := by
  intro hclaim
  obtain ⟨v1, v2, hne, heq⟩ := Finite.exists_ne_map_eq_of_infinite digestFin
  apply hclaim v1 v2 hne
  have hdig : sha256Words (utf8Bytes (jsonDumpsSortKeys (certPayloadV v1)))
      = sha256Words (utf8Bytes (jsonDumpsSortKeys (certPayloadV v2))) := by
    apply List.ext_get
    · rw [sha256Words_length, sha256Words_length]
    · intro n h1 h2
      have hn : n < 8 := by rw [sha256Words_length] at h1; exact h1
      have hval : (sha256Words (utf8Bytes (jsonDumpsSortKeys (certPayloadV v1)))).getD n 0
          = (sha256Words (utf8Bytes (jsonDumpsSortKeys (certPayloadV v2)))).getD n 0 :=
        congrArg Fin.val (congrFun heq ⟨n, hn⟩)
      rw [← getD_eq_get h1, ← getD_eq_get h2]
      exact hval
  rw [certDictV_onchain, certDictV_onchain]
  unfold generate_hash sha256hex
  rw [hdig]

/-! ### Claim C1: rollback on sub-record failure -/

/-- envSubFail is a run in which Document.objects.create succeeds and the
typed sub-record create raises. -/
def envSubFail : Env :=
  { ts := "20240101120000000000", docCreateOk := true, docErr := "doc create failed",
    subCreateOk := false, subErr := "sub-record constraint violation",
    evidenceOk := fun _ => true, evidenceErr := "" }

/-- certDataFull is a complete certificate submission. -/
def certDataFull : Dict :=
  [("certificate_title", "Responsive Web Design"), ("issuer_name", "freeCodeCamp"),
   ("completion_date", "2023-10"), ("credential_type", "Course"),
   ("program_category", "Web Development")]

/-- Claim C1 is a code bug: when the Certificate sub-record create raises
after the Document row was created, process_document returns None with a
non-empty error list as specified, but the primary Document row is still in
storage: the rollback guard `if document: document.delete()` cannot fire
because the exception prevents the assignment to the local `document`, so
the guard sees None.  This theorem evaluates the pipeline at the failing
input: the primary record remains (one Document row, no sub-record row). -/
theorem C1_rollback_missing :
    (process_document envSubFail "certificate" certDataFull none [] Storage.empty).1.1 = none
    ∧ (process_document envSubFail "certificate" certDataFull none [] Storage.empty).1.2 =
        ["sub-record constraint violation"]
    ∧ ((process_document envSubFail "certificate" certDataFull none [] Storage.empty).2).documents.length = 1
    ∧ ((process_document envSubFail "certificate" certDataFull none [] Storage.empty).2).subs = [] := by
  refine ⟨rfl, rfl, rfl, rfl⟩

/-! ### Claim C4: evidence-attachment failures are non-fatal -/

theorem attachEvidence_errors (env : Env) (pt : String) (docId : Nat) :
    ∀ (files : List FileObj) (s : Storage),
      (attachEvidence env pt docId files s).1 =
        files.filterMap (fun f =>
          if env.evidenceOk f.name then none
          else some ("Error uploading file " ++ f.name ++ ": " ++ env.evidenceErr)) := by
  intro files
  induction files with
  | nil => intro s; rfl
  | cons f fs ih =>
    intro s
    by_cases hf : env.evidenceOk f.name
    · simp [attachEvidence, hf, ih]
    · simp [attachEvidence, hf, ih]

theorem attachEvidence_keeps_rows (env : Env) (pt : String) (docId : Nat) :
    ∀ (files : List FileObj) (s : Storage),
      ((attachEvidence env pt docId files s).2).documents = s.documents
      ∧ ((attachEvidence env pt docId files s).2).subs = s.subs := by
  intro files
  induction files with
  | nil => intro s; exact ⟨rfl, rfl⟩
  | cons f fs ih =>
    intro s
    by_cases hf : env.evidenceOk f.name
    · simpa [attachEvidence, hf] using ih _
    · simpa [attachEvidence, hf] using ih s

/-- Claim C4: once the primary record and the sub-record were created, a
failure while attaching evidence files deletes nothing: the Document and
sub-record rows added by the typed handler are still present afterwards,
the record is still returned, and the error list holds exactly one message
per failing file, in file order. -/
theorem C4_attach_nonfatal (env : Env) (pt : String) (data : Dict) (uid : Option String)
    (files : List FileObj) (s s1 : Storage) (doc : Document)
    (hdisp : dispatchTyped env pt data uid s = some (.ok doc, s1)) :
    (process_document env pt data uid files s).1.1 = some doc
    ∧ (process_document env pt data uid files s).1.2 =
        files.filterMap (fun f =>
          if env.evidenceOk f.name then none
          else some ("Error uploading file " ++ f.name ++ ": " ++ env.evidenceErr))
    ∧ ((process_document env pt data uid files s).2).documents = s1.documents
    ∧ ((process_document env pt data uid files s).2).subs = s1.subs := by
  have hpd : process_document env pt data uid files s =
      ((some doc, (attachEvidence env pt doc.id files s1).1),
        (attachEvidence env pt doc.id files s1).2) := by
    unfold process_document
    rw [hdisp]
  rw [hpd]
  exact ⟨rfl, attachEvidence_errors env pt doc.id files s1,
    (attachEvidence_keeps_rows env pt doc.id files s1).1,
    (attachEvidence_keeps_rows env pt doc.id files s1).2⟩

/-- envAttach is a run in which record creation succeeds and exactly the
file bad.png fails to attach. -/
def envAttach : Env :=
  { ts := "20240101120000000000", docCreateOk := true, docErr := "doc create failed",
    subCreateOk := true, subErr := "sub create failed",
    evidenceOk := fun n => !(n = "bad.png"), evidenceErr := "disk full" }

/-- Witness for C4_attach_nonfatal at a concrete run with one good and one
bad evidence file. -/
theorem C4_attach_nonfatal_witness :
    ((process_document envAttach "certificate" certDataFull none
        [{ name := "good.pdf", content_type := some "application/pdf" },
         { name := "bad.png", content_type := some "image/png" }] Storage.empty).1).2 =
      ["Error uploading file bad.png: disk full"]
    ∧ ((process_document envAttach "certificate" certDataFull none
        [{ name := "good.pdf", content_type := some "application/pdf" },
         { name := "bad.png", content_type := some "image/png" }] Storage.empty).1).1.isSome = true := by
  have h := C4_attach_nonfatal envAttach "certificate" certDataFull none
    [{ name := "good.pdf", content_type := some "application/pdf" },
     { name := "bad.png", content_type := some "image/png" }] Storage.empty _ _ rfl
  refine ⟨?_, ?_⟩
  · rw [h.2.1]
    rfl
  · rw [h.1]
    rfl

/-! ### Claim C3: batch processing -/

theorem processBatchAux_cons_none {env : Env} {uid : Option String} {idx : Nat}
    {it : Submission} {rest : List Submission} {s : Storage}
    (hr : (process_document env it.proof_type it.data uid it.evidence_files s).1.1 = none) :
    processBatchAux env uid idx (it :: rest) s =
      (BatchEntry.failure idx it.proof_type
          (process_document env it.proof_type it.data uid it.evidence_files s).1.2 ::
        (processBatchAux env uid (idx + 1) rest
          (process_document env it.proof_type it.data uid it.evidence_files s).2).1,
       (processBatchAux env uid (idx + 1) rest
          (process_document env it.proof_type it.data uid it.evidence_files s).2).2.1,
       (processBatchAux env uid (idx + 1) rest
          (process_document env it.proof_type it.data uid it.evidence_files s).2).2.2.1 + 1,
       (processBatchAux env uid (idx + 1) rest
          (process_document env it.proof_type it.data uid it.evidence_files s).2).2.2.2) := by
  simp only [processBatchAux]
  rw [hr]

theorem processBatchAux_cons_some {env : Env} {uid : Option String} {idx : Nat}
    {it : Submission} {rest : List Submission} {s : Storage} {doc : Document}
    (hr : (process_document env it.proof_type it.data uid it.evidence_files s).1.1 = some doc) :
    processBatchAux env uid idx (it :: rest) s =
      (BatchEntry.success idx it.proof_type (toString doc.id) doc.internal_id ::
        (processBatchAux env uid (idx + 1) rest
          (process_document env it.proof_type it.data uid it.evidence_files s).2).1,
       (processBatchAux env uid (idx + 1) rest
          (process_document env it.proof_type it.data uid it.evidence_files s).2).2.1 + 1,
       (processBatchAux env uid (idx + 1) rest
          (process_document env it.proof_type it.data uid it.evidence_files s).2).2.2.1,
       (processBatchAux env uid (idx + 1) rest
          (process_document env it.proof_type it.data uid it.evidence_files s).2).2.2.2) := by
  simp only [processBatchAux]
  rw [hr]

theorem filter_split_length {α : Type} (p : α → Bool) :
    ∀ l : List α, (l.filter p).length + (l.filter (fun x => !p x)).length = l.length := by
  intro l
  induction l with
  | nil => rfl
  | cons x xs ih => by_cases hx : p x <;> simp [List.filter_cons, hx] <;> omega

theorem processBatchAux_spec (env : Env) (uid : Option String) :
    ∀ (items : List Submission) (idx : Nat) (s : Storage),
      (processBatchAux env uid idx items s).1.length = items.length
      ∧ (processBatchAux env uid idx items s).2.1 =
          ((processBatchAux env uid idx items s).1.filter BatchEntry.isSuccess).length
      ∧ (processBatchAux env uid idx items s).2.2.1 =
          ((processBatchAux env uid idx items s).1.filter (fun e => !e.isSuccess)).length
      ∧ ∀ j, j < items.length →
          ((processBatchAux env uid idx items s).1.getD j default).indexOf = idx + j
          ∧ ((processBatchAux env uid idx items s).1.getD j default).typeOf =
              (items.getD j default).proof_type := by
  intro items
  induction items with
  | nil =>
    intro idx s
    exact ⟨rfl, rfl, rfl, fun j hj => absurd hj (by simp)⟩
  | cons it rest ih =>
    intro idx s
    obtain ⟨ih1, ih2, ih3, ih4⟩ :=
      ih (idx + 1) ((process_document env it.proof_type it.data uid it.evidence_files s).2)
    cases hr : (process_document env it.proof_type it.data uid it.evidence_files s).1.1 with
    | none =>
      rw [processBatchAux_cons_none hr]
      refine ⟨by simpa using ih1, ?_, ?_, ?_⟩
      · simpa [List.filter_cons, BatchEntry.isSuccess] using ih2
      · simpa [List.filter_cons, BatchEntry.isSuccess] using ih3
      · intro j hj
        cases j with
        | zero => exact ⟨by simp [BatchEntry.indexOf], by simp [BatchEntry.typeOf]⟩
        | succ j =>
          have hj2 : j < rest.length := by simpa using hj
          obtain ⟨e1, e2⟩ := ih4 j hj2
          refine ⟨?_, ?_⟩
          · simp only [List.getD_cons_succ]
            rw [e1]
            omega
          · simp only [List.getD_cons_succ]
            exact e2
    | some doc =>
      rw [processBatchAux_cons_some hr]
      refine ⟨by simpa using ih1, ?_, ?_, ?_⟩
      · simpa [List.filter_cons, BatchEntry.isSuccess] using ih2
      · simpa [List.filter_cons, BatchEntry.isSuccess] using ih3
      · intro j hj
        cases j with
        | zero => exact ⟨by simp [BatchEntry.indexOf], by simp [BatchEntry.typeOf]⟩
        | succ j =>
          have hj2 : j < rest.length := by simpa using hj
          obtain ⟨e1, e2⟩ := ih4 j hj2
          refine ⟨?_, ?_⟩
          · simp only [List.getD_cons_succ]
            rw [e1]
            omega
          · simp only [List.getD_cons_succ]
            exact e2

/-- envBatchOk is a run in which every storage create succeeds. -/
def envBatchOk : Env :=
  { ts := "20240101120000000000", docCreateOk := true, docErr := "doc create failed",
    subCreateOk := true, subErr := "sub create failed",
    evidenceOk := fun _ => true, evidenceErr := "" }

/-- batchThree is a batch of three submissions whose second item carries an
unknown document type. -/
def batchThree : List Submission :=
  [{ proof_type := "certificate",
     data := [("certificate_title", "Responsive Web Design"), ("issuer_name", "freeCodeCamp"),
              ("completion_date", "2023-10"), ("credential_type", "Course"),
              ("program_category", "Web Development")],
     evidence_files := [] },
   { proof_type := "degree", data := [("field", "CS")], evidence_files := [] },
   { proof_type := "skill",
     data := [("skill_name", "Lua"), ("skill_category", "Programming")],
     evidence_files := [] }]

/-- Claim C3: process_batch processes items in input order, a failing item
never stops the others (every item yields exactly one result entry), every
entry keeps its original index and declared type, and the statistics tally
total = length, successful = number of items returning a record, failed =
number returning None; concretely the three-item batch whose second item
has unknown type degree tallies total 3, successful 2, failed 1 with
indices 0, 1, 2 in order. -/
theorem C3_batch_isolation (env : Env) (uid : Option String) (items : List Submission)
    (s : Storage) :
    (process_batch env items uid s).1.results.length = items.length
    ∧ (process_batch env items uid s).1.statistics.total = items.length
    ∧ (process_batch env items uid s).1.statistics.successful =
        ((process_batch env items uid s).1.results.filter BatchEntry.isSuccess).length
    ∧ (process_batch env items uid s).1.statistics.failed =
        ((process_batch env items uid s).1.results.filter (fun e => !e.isSuccess)).length
    ∧ (process_batch env items uid s).1.statistics.successful
        + (process_batch env items uid s).1.statistics.failed = items.length
    ∧ (∀ j, j < items.length →
        ((process_batch env items uid s).1.results.getD j default).indexOf = j
        ∧ ((process_batch env items uid s).1.results.getD j default).typeOf =
            (items.getD j default).proof_type)
    ∧ (process_batch envBatchOk batchThree none Storage.empty).1.statistics =
        { total := 3, successful := 2, failed := 1 }
    ∧ ((process_batch envBatchOk batchThree none Storage.empty).1.results.map
        BatchEntry.indexOf) = [0, 1, 2] := by
  obtain ⟨h1, h2, h3, h4⟩ := processBatchAux_spec env uid items 0 s
  refine ⟨h1, rfl, h2, h3, ?_, ?_, by decide, by decide⟩
  · show (processBatchAux env uid 0 items s).2.1 + (processBatchAux env uid 0 items s).2.2.1
        = items.length
    rw [h2, h3, filter_split_length, h1]
  · intro j hj
    obtain ⟨e1, e2⟩ := h4 j hj
    exact ⟨e1.trans (Nat.zero_add j), e2⟩

/-- Witness for C3_batch_isolation: the result entry of the failing second
item still exists, carries index 1 and type degree, while statistics count
3, 2 and 1. -/
theorem C3_batch_isolation_witness :
    ((process_batch envBatchOk batchThree none Storage.empty).1.results.getD 1 default).indexOf = 1
    ∧ ((process_batch envBatchOk batchThree none Storage.empty).1.results.getD 1
        default).typeOf = "degree"
    ∧ (process_batch envBatchOk batchThree none Storage.empty).1.statistics =
        { total := 3, successful := 2, failed := 1 } := by
  have h := C3_batch_isolation envBatchOk none batchThree Storage.empty
  obtain ⟨e1, e2⟩ := h.2.2.2.2.2.1 1 (by decide)
  exact ⟨e1, by rw [e2]; rfl, h.2.2.2.2.2.2.1⟩

/-! ### Claim C5: extraction soft failures -/

theorem error_message_nonempty (msg : String) : ("Error extracting data: " ++ msg) ≠ "" := by
  intro h
  have hlen : ("Error extracting data: " ++ msg).length = 0 := by rw [h]; rfl
  rw [String.length_append] at hlen
  have : ("Error extracting data: ").length = 23 := rfl
  omega

/-- Claim C5: extract_from_file is a total function (the model never
raises); a file whose extension is neither pdf nor a recognized image
extension yields empty fields with the non-empty message Unsupported file
type, and an exception from the PDF or OCR collaborator is caught and
turned into empty fields plus a descriptive non-empty message. -/
theorem C5_soft_failure (env : ExtractEnv) (f : FileObj) (pt : String) :
    (fileExtension f.name ≠ "pdf" → fileExtension f.name ∉ imageExtensions →
        extract_from_file env f pt = ([], "Unsupported file type"))
    ∧ (∀ e, fileExtension f.name = "pdf" → env.pdfPages f = .error e →
        extract_from_file env f pt =
          ([], "Error extracting data: " ++ ("PDF extraction failed: " ++ e)))
    ∧ (∀ e, fileExtension f.name ∈ imageExtensions → env.ocr f = .error e →
        extract_from_file env f pt =
          ([], "Error extracting data: " ++ ("Image extraction failed: " ++ e)))
    ∧ ("Unsupported file type" ≠ "")
    ∧ (∀ msg, ("Error extracting data: " ++ msg) ≠ "") := by
  refine ⟨?_, ?_, ?_, by decide, error_message_nonempty⟩
  · intro h1 h2
    simp only [extract_from_file]
    rw [if_neg h1, if_neg h2]
  · intro e hext herr
    have hp : extract_from_pdf env f = .error ("PDF extraction failed: " ++ e) := by
      unfold extract_from_pdf
      rw [herr]
    simp only [extract_from_file]
    rw [if_pos hext, hp]
  · intro e hmem herr
    have hne : fileExtension f.name ≠ "pdf" := by
      intro heq
      rw [heq] at hmem
      exact absurd hmem (by decide)
    have hp : extract_from_image env f = .error ("Image extraction failed: " ++ e) := by
      unfold extract_from_image
      rw [herr]
    simp only [extract_from_file]
    rw [if_neg hne, if_pos hmem, hp]

/-- envSoft is an extraction run whose collaborators both raise. -/
def envSoft : ExtractEnv :=
  { pdfPages := fun _ => .error "broken stream",
    ocr := fun _ => .error "tesseract missing",
    structuredExtract := fun _ _ => [] }

/-- Witness for C5_soft_failure on an exe, a pdf and a png file. -/
theorem C5_soft_failure_witness :
    extract_from_file envSoft { name := "virus.exe", content_type := none } "certificate" =
      ([], "Unsupported file type")
    ∧ extract_from_file envSoft { name := "cert.pdf", content_type := none } "certificate" =
      ([], "Error extracting data: PDF extraction failed: broken stream")
    ∧ extract_from_file envSoft { name := "scan.png", content_type := none } "certificate" =
      ([], "Error extracting data: Image extraction failed: tesseract missing") := by
  have h1 := (C5_soft_failure envSoft { name := "virus.exe", content_type := none }
    "certificate").1 (by decide) (by decide)
  have h2 := (C5_soft_failure envSoft { name := "cert.pdf", content_type := none }
    "certificate").2.1 "broken stream" (by decide) rfl
  have h3 := (C5_soft_failure envSoft { name := "scan.png", content_type := none }
    "certificate").2.2.1 "tesseract missing" (by decide) rfl
  exact ⟨h1, h2.trans (by decide), h3.trans (by decide)⟩

/-! ### Claim C6: the five explicit date layouts -/

/-- Claim C6: the five spec inputs all normalize to 2023-10 through the
ordered explicit-layout list. -/
theorem C6_explicit_dates :
    normalize_date "October 28, 2023" = "2023-10"
    ∧ normalize_date "Oct 28, 2023" = "2023-10"
    ∧ normalize_date "October 2023" = "2023-10"
    ∧ normalize_date "10/28/2023" = "2023-10"
    ∧ normalize_date "2023-10-28" = "2023-10" := by
  refine ⟨by decide, by decide, by decide, by decide, by decide⟩

/-! ### Claim C7: the fallback year and month extraction -/

theorem yearSearch_shape {s y : String} (h : yearSearch s = some y) :
    ∃ c3 c4, c3.isDigit ∧ c4.isDigit ∧ y = String.mk ['2', '0', c3, c4] := by
  unfold yearSearch at h
  obtain ⟨i, _, hi⟩ := List.exists_of_findSome?_eq_some h
  unfold yearTokenAt at hi
  split at hi
  case h_1 c1 c2 c3 c4 tl heq =>
    split at hi
    case isTrue hcond =>
      simp only [Bool.and_eq_true, decide_eq_true_eq] at hcond
      obtain ⟨⟨⟨⟨⟨h2, h0⟩, hd3⟩, hd4⟩, hb⟩, hw⟩ := hcond
      cases hi
      exact ⟨c3, c4, hd3, hd4, by rw [h2, h0]⟩
    case isFalse => cases hi
  case h_2 => cases hi

/-- Claim C7, amended: on a date string none of whose explicit layouts
parse, if the fallback searches find a standalone year token and a
standalone month token, the result is year-dash-zero-padded-month, and the
found year necessarily has four digits starting 20 (the source regex is
20\d{2}, so years 2000 to 2099: a year like 2150 is NOT found although it
is at least 2000); if a year is found but no numeric month, the first month
name contained in the lowered text gives year-dash-month-number; otherwise
the trimmed input is returned unchanged. -/
theorem C7_fallback (s0 : String) (htry : tryFormats (pyStrip s0) = none) :
    (∀ y m, yearSearch (pyStrip s0) = some y → monthSearch (pyStrip s0) = some m →
        normalize_date s0 = y ++ "-" ++ zfill2Str m
        ∧ ∃ c3 c4, c3.isDigit ∧ c4.isDigit ∧ y = String.mk ['2', '0', c3, c4])
    ∧ (∀ y mm, yearSearch (pyStrip s0) = some y → monthSearch (pyStrip s0) = none →
        monthNameFallback (pyStrip s0) (some y) = some mm →
        normalize_date s0 = y ++ "-" ++ mm)
    ∧ (yearSearch (pyStrip s0) = none → normalize_date s0 = pyStrip s0)
    ∧ (∀ y, yearSearch (pyStrip s0) = some y → monthSearch (pyStrip s0) = none →
        monthNameFallback (pyStrip s0) (some y) = none →
        normalize_date s0 = pyStrip s0) := by
  refine ⟨?_, ?_, ?_, ?_⟩
  · intro y m hy hm
    refine ⟨?_, yearSearch_shape hy⟩
    simp only [normalize_date]
    rw [htry, hy, hm]
  · intro y mm hy hm hmm
    simp only [normalize_date]
    rw [htry, hy, hm]
    dsimp only
    rw [hmm]
  · intro hy
    simp only [normalize_date]
    rw [htry, hy]
  · intro y hy hm hmm
    simp only [normalize_date]
    rw [htry, hy, hm]
    dsimp only
    rw [hmm]

/-- standaloneTokenAt expresses the claim wording: the token occurs at
position i with no word character on either side. -/
def standaloneTokenAt (cs tok : List Char) (i : Nat) : Bool :=
  tok.isPrefixOf (cs.drop i) && boundaryBefore cs i && noWordAt cs (i + tok.length)

/-- containsStandaloneToken says a token occurs standalone somewhere in the
string. -/
def containsStandaloneToken (s tok : String) : Bool :=
  (List.range s.data.length).any (standaloneTokenAt s.data tok.data)

/-- Counterexample to the literal C7: the input mystery 2150 07 parses by
no explicit layout, contains the standalone 4-digit year 2150 (which is at
least 2000) and the standalone month token 07 (in 1..12), yet
normalize_date returns the input unchanged instead of 2150-07, because the
source year regex only matches years starting 20. -/
theorem C7_counterexample :
    tryFormats (pyStrip "mystery 2150 07") = none
    ∧ containsStandaloneToken "mystery 2150 07" "2150" = true
    ∧ 2000 ≤ 2150
    ∧ containsStandaloneToken "mystery 2150 07" "07" = true
    ∧ 1 ≤ 7 ∧ 7 ≤ 12
    ∧ normalize_date "mystery 2150 07" = "mystery 2150 07"
    ∧ normalize_date "mystery 2150 07" ≠ "2150-07" := by
  refine ⟨by decide, by decide, by omega, by decide, by omega, by omega, by decide, by decide⟩

/-- Witness for C7_fallback on a concrete unparseable string with an
embedded year and month token. -/
theorem C7_fallback_witness :
    normalize_date "before 2021 there were 7 events" = "2021-07"
    ∧ normalize_date "sometime in March, 2022" = "2022-03" := by
  have h1 := (C7_fallback "before 2021 there were 7 events" (by decide)).1 "2021" "7"
    (by decide) (by decide)
  have h2 := (C7_fallback "sometime in March, 2022" (by decide)).2.1 "2022" "03"
    (by decide) (by decide) (by decide)
  exact ⟨h1.1.trans (by decide), h2.trans (by decide)⟩

/-! ### Claim C8: overall confidence -/

theorem cert_overall_concrete :
    (get_extraction_confidence
        [("certificate_title", "Responsive Web Design"), ("issuer_name", "freeCodeCamp")]
        "certificate").overall = (2 / 3 : Rat) * 100 := by
  have e : (get_extraction_confidence
      [("certificate_title", "Responsive Web Design"), ("issuer_name", "freeCodeCamp")]
      "certificate").overall =
      ((List.filter (presentNonEmpty
          [("certificate_title", "Responsive Web Design"), ("issuer_name", "freeCodeCamp")])
          ["certificate_title", "issuer_name", "completion_date"]).length : Rat) /
        ((["certificate_title", "issuer_name", "completion_date"] : List String).length : Rat)
        * 100 := rfl
  rw [e]
  rw [show (List.filter (presentNonEmpty
      [("certificate_title", "Responsive Web Design"), ("issuer_name", "freeCodeCamp")])
      ["certificate_title", "issuer_name", "completion_date"]).length = 2 from rfl]
  rw [show (["certificate_title", "issuer_name", "completion_date"] : List String).length = 3
    from rfl]
  norm_num

/-- Claim C8: a type without a declared required-field set gets overall 0
and an empty per-field map; a type with one gets overall = found/total*100
where found counts required fields present with a non-empty value; for
certificate with exactly certificate_title and issuer_name present the
overall is (2/3)*100. -/
theorem C8_overall_confidence (extracted : Dict) (pt : String) :
    (requiredFieldsFor pt = none →
        get_extraction_confidence extracted pt = { overall := 0, fields := [] })
    ∧ (∀ req, requiredFieldsFor pt = some req →
        (get_extraction_confidence extracted pt).overall =
          ((req.filter (presentNonEmpty extracted)).length : Rat) / (req.length : Rat) * 100)
    ∧ (get_extraction_confidence
        [("certificate_title", "Responsive Web Design"), ("issuer_name", "freeCodeCamp")]
        "certificate").overall = (2 / 3 : Rat) * 100 := by
  refine ⟨?_, ?_, cert_overall_concrete⟩
  · intro h
    unfold get_extraction_confidence
    rw [h]
  · intro req h
    unfold get_extraction_confidence
    rw [h]

/-- Witness for C8_overall_confidence: skill has no required-field set, and
the concrete certificate extraction scores (2/3)*100. -/
theorem C8_overall_confidence_witness :
    get_extraction_confidence [("skill_name", "Lua")] "skill" = { overall := 0, fields := [] }
    ∧ (get_extraction_confidence
        [("certificate_title", "Responsive Web Design"), ("issuer_name", "freeCodeCamp")]
        "certificate").overall = (2 / 3 : Rat) * 100 := by
  have h1 := (C8_overall_confidence [("skill_name", "Lua")] "skill").1 rfl
  have h2 := (C8_overall_confidence [] "certificate").2.2
  exact ⟨h1, h2⟩

/-! ### Claim C9: per-field labels -/

theorem dictGet_eq_none_of_not_mem : ∀ (l : Dict) (k : String),
    k ∉ l.map Prod.fst → dictGet l k = none := by
  intro l
  induction l with
  | nil => intro k _; rfl
  | cons kv t ih =>
    intro k hk
    simp only [List.map_cons, List.mem_cons] at hk
    push_neg at hk
    unfold dictGet
    rw [if_neg (fun he => hk.1 he.symm)]
    exact ih k hk.2

theorem dictGet_filterMap_label (lab : String → String) :
    ∀ (l : Dict), (l.map Prod.fst).Nodup → ∀ k,
      dictGet (l.filterMap (fun kv =>
          if kv.2 = "" then none else some (kv.1, lab kv.2))) k =
        match dictGet l k with
        | some v => if v = "" then none else some (lab v)
        | none => none := by
  intro l
  induction l with
  | nil => intro _ k; rfl
  | cons kv t ih =>
    intro hnd k
    rw [List.map_cons] at hnd
    obtain ⟨hh, ht⟩ := List.nodup_cons.mp hnd
    have hdg : dictGet (kv :: t) k = if kv.1 = k then some kv.2 else dictGet t k := rfl
    by_cases hv : kv.2 = ""
    · have hfm : List.filterMap (fun kv => if kv.2 = "" then none else some (kv.1, lab kv.2))
          (kv :: t) =
          List.filterMap (fun kv => if kv.2 = "" then none else some (kv.1, lab kv.2)) t := by
        rw [List.filterMap_cons]
        rw [if_pos hv]
      rw [hfm, ih ht k, hdg]
      by_cases hk : kv.1 = k
      · have hkt : dictGet t k = none := by
          apply dictGet_eq_none_of_not_mem
          rw [← hk]
          exact hh
        rw [hkt, if_pos hk]
        dsimp only
        rw [if_pos hv]
      · rw [if_neg hk]
    · have hfm : List.filterMap (fun kv => if kv.2 = "" then none else some (kv.1, lab kv.2))
          (kv :: t) = (kv.1, lab kv.2) ::
            List.filterMap (fun kv => if kv.2 = "" then none else some (kv.1, lab kv.2)) t := by
        rw [List.filterMap_cons]
        rw [if_neg hv]
      have hdg2 : dictGet ((kv.1, lab kv.2) :: List.filterMap (fun kv =>
          if kv.2 = "" then none else some (kv.1, lab kv.2)) t) k =
          if kv.1 = k then some (lab kv.2) else dictGet (List.filterMap (fun kv =>
            if kv.2 = "" then none else some (kv.1, lab kv.2)) t) k := rfl
      rw [hfm, hdg2, hdg]
      by_cases hk : kv.1 = k
      · rw [if_pos hk, if_pos hk]
        dsimp only
        rw [if_neg hv]
      · rw [if_neg hk, if_neg hk, ih ht k]

/-- Claim C9, amended: for a type with a declared required-field set and an
extracted mapping with distinct keys, the per-field map labels exactly the
extracted fields whose value is non-empty: high when the length exceeds 3
characters, low otherwise; a field whose extracted value is the empty
string receives NO label at all (so the literal claim, that every extracted
field receives a label, fails on empty values). -/
theorem C9_field_labels (extracted : Dict) (pt : String) (req : List String)
    (hreq : requiredFieldsFor pt = some req) (hnd : (extracted.map Prod.fst).Nodup)
    (k : String) :
    dictGet (get_extraction_confidence extracted pt).fields k =
      match dictGet extracted k with
      | some v => if v = "" then none else some (if v.length > 3 then "high" else "low")
      | none => none := by
  unfold get_extraction_confidence
  rw [hreq]
  exact dictGet_filterMap_label (fun v => if v.length > 3 then "high" else "low")
    extracted hnd k

/-- Counterexample to the literal C9: an extracted certificate_title whose
value is the empty string receives no label at all, where the claim
demands the label low. -/
theorem C9_counterexample :
    ¬ (∀ (extracted : Dict) (pt : String) (req : List String),
        requiredFieldsFor pt = some req →
        ∀ kv ∈ extracted,
          dictGet (get_extraction_confidence extracted pt).fields kv.1 =
            some (if kv.2.length > 3 then "high" else "low")) := by
  intro h
  have := h [("certificate_title", "")] "certificate" _ rfl ("certificate_title", "")
    (by simp)
  exact absurd this (by decide)

/-- Witness for C9_field_labels: a long value gets high, a short value gets
low, and an empty value gets no label. -/
theorem C9_field_labels_witness :
    dictGet (get_extraction_confidence
        [("certificate_title", "JS"), ("issuer_name", "freeCodeCamp"), ("completion_date", "")]
        "certificate").fields "issuer_name" = some "high"
    ∧ dictGet (get_extraction_confidence
        [("certificate_title", "JS"), ("issuer_name", "freeCodeCamp"), ("completion_date", "")]
        "certificate").fields "certificate_title" = some "low"
    ∧ dictGet (get_extraction_confidence
        [("certificate_title", "JS"), ("issuer_name", "freeCodeCamp"), ("completion_date", "")]
        "certificate").fields "completion_date" = none := by
  have h1 := C9_field_labels
    [("certificate_title", "JS"), ("issuer_name", "freeCodeCamp"), ("completion_date", "")]
    "certificate" _ rfl (by decide) "issuer_name"
  have h2 := C9_field_labels
    [("certificate_title", "JS"), ("issuer_name", "freeCodeCamp"), ("completion_date", "")]
    "certificate" _ rfl (by decide) "certificate_title"
  have h3 := C9_field_labels
    [("certificate_title", "JS"), ("issuer_name", "freeCodeCamp"), ("completion_date", "")]
    "certificate" _ rfl (by decide) "completion_date"
  exact ⟨h1.trans (by decide), h2.trans (by decide), h3.trans (by decide)⟩

/-! ### Claim C10: raw-text truncation -/

/-- Claim C10: the raw_text entry returned by extract_and_create_document
is None exactly when extraction produced empty text, and otherwise holds
precisely the first 500 characters of that text, so its length never
exceeds 500 however long the extracted raw text is; the full text is never
returned through this operation. -/
theorem C10_raw_text_truncated (env : ExtractEnv) (f : FileObj) (pt : String)
    (ud : Option Dict) :
    (extract_and_create_document env f pt ud).raw_text =
      (if (extract_from_file env f pt).2 = "" then none
       else some (String.mk ((extract_from_file env f pt).2.data.take 500)))
    ∧ ∀ t, (extract_and_create_document env f pt ud).raw_text = some t →
        t.length ≤ 500 ∧ t.data = (extract_from_file env f pt).2.data.take 500 := by
  refine ⟨rfl, ?_⟩
  intro t ht
  have h0 : (extract_and_create_document env f pt ud).raw_text =
      (if (extract_from_file env f pt).2 = "" then none
       else some (String.mk ((extract_from_file env f pt).2.data.take 500))) := rfl
  rw [h0] at ht
  by_cases he : (extract_from_file env f pt).2 = ""
  · rw [if_pos he] at ht
    cases ht
  · rw [if_neg he] at ht
    cases ht
    constructor
    · rw [stringMk_length, List.length_take]
      exact min_le_left _ _
    · rfl

/-- envLongText is an extraction run whose PDF text layer returns 600
characters. -/
def envLongText : ExtractEnv :=
  { pdfPages := fun _ => .ok [String.mk (List.replicate 600 'x')],
    ocr := fun _ => .error "unused",
    structuredExtract := fun _ _ => [] }

set_option maxRecDepth 20000 in
/-- Witness for C10_raw_text_truncated: 600 extracted characters come back
as exactly the first 500. -/
theorem C10_raw_text_truncated_witness :
    (extract_and_create_document envLongText { name := "long.pdf", content_type := none }
        "certificate" none).raw_text = some (String.mk (List.replicate 500 'x'))
    ∧ (String.mk (List.replicate 500 'x')).length ≤ 500 := by
  have h := C10_raw_text_truncated envLongText { name := "long.pdf", content_type := none }
    "certificate" none
  have h1 : (extract_and_create_document envLongText
      { name := "long.pdf", content_type := none } "certificate" none).raw_text =
      some (String.mk (List.replicate 500 'x')) := h.1.trans (by decide)
  exact ⟨h1, (h.2 _ h1).1⟩
